import Mathlib

/-!
Shallow embedding of `bpython/curtsiesfrontend/coderunner.py`.

The Python module runs user code on a greenlet (the worker context) that can
suspend itself back to the main greenlet (the driver context).  The model:

* Python values that cross the greenlet boundary are `PyVal`; the class object
  `SigintHappened` is used as an interrupt sentinel compared with `is`, so it
  is one distinguished constructor.
* The process-wide `signal.SIGINT` slot is a `SigHandler` value stored in the
  scheduler state (one runner per process in this model); `signal.getsignal`
  reads the `slot` field and `signal.signal` writes it.
* The opaque interpreter call `self.interp.runsource(source)` is a value of
  `InterpProg`: a resumable program that may call the suspension primitives
  `wait_and_get_value` / `refresh_and_get_value` any number of times and in
  the end returns a completeness flag or raises an exception.  The
  continuation of a suspension receives either the value the primitive
  returned or the `KeyboardInterrupt` the primitive raised into the
  interpreter.
* A greenlet is its identity (a `Nat`; the main greenlet is `0`) together
  with its execution state; switching a value into a suspended greenlet
  applies its continuation.
* Each method of `CodeRunner` is a state-passing function; `self.interp` is
  threaded as an explicit parameter of `run_code`.  Invoking the callback
  `stuff_a_refresh_request` is recorded as the `refreshed` flag of a step
  result.
-/

inductive PyExc where
  | systemExit
  | keyboardInterrupt
  deriving DecidableEq, Repr

/-- Python values crossing the greenlet boundary: `None`, booleans, strings
(the protocol tags are the strings used at lines 102-116), and the class
object `SigintHappened` used as the interrupt sentinel. -/
inductive PyVal where
  | none
  | bool (b : Bool)
  | str (s : String)
  | sigintHappened
  deriving DecidableEq, Repr

/-- A value the process-wide SIGINT handler slot can hold: Python `None`
(the initial value of `orig_sigint_handler`), some handler installed outside
the runner, or the bound method `CodeRunner.sigint_handler`. -/
inductive SigHandler where
  | pyNone
  | outside (n : Nat)
  | runner
  deriving DecidableEq, Repr

/-- The opaque `interp.runsource(source)` call as a resumable program.  It
may suspend by calling the suspension primitives of the runner; the
continuation receives `Except.ok v` when the primitive returns `v` and
`Except.error KeyboardInterrupt` when the primitive raises (the interpreter
may catch that and continue, or raise further). -/
inductive InterpProg where
  | ret (unfinished : Bool)
  | raiseExc (e : PyExc)
  | wait (k : Except PyExc PyVal → InterpProg)
  | refresh (k : Except PyExc PyVal → InterpProg)

/-- What running (or resuming) the code greenlet does, as observed by the
main greenlet at its `switch` call: the worker suspends yielding a value (and
can be resumed with a delivered value), finishes returning a value, or lets
an exception propagate out of the greenlet. -/
inductive WorkerRun where
  | suspend (yielded : PyVal) (k : PyVal → WorkerRun)
  | ret (v : PyVal)
  | exc (e : PyExc)

/-- Execution state of the code greenlet object: suspended with a pending
continuation, or finished. -/
inductive WorkerState where
  | suspended (k : PyVal → WorkerRun)
  | dead

/-- A greenlet object: its identity plus its execution state. -/
structure Worker where
  id : Nat
  st : WorkerState

/-- The mutable fields of a `CodeRunner` (lines 53-60) plus the process-wide
SIGINT slot and a counter supplying fresh greenlet identities (the main
greenlet has identity `0`). -/
structure CRState where
  source : Option String
  code_greenlet : Option Worker
  code_is_waiting : Bool
  sigint_happened : Bool
  orig_sigint_handler : SigHandler
  slot : SigHandler
  next_gid : Nat

/-- A fresh `CodeRunner` (lines 53-60), in a process whose SIGINT slot holds
`slot0`. -/
def initState (slot0 : SigHandler) : CRState :=
  { source := none
    code_greenlet := none
    code_is_waiting := false
    sigint_happened := false
    orig_sigint_handler := SigHandler.pyNone
    slot := slot0
    next_gid := 1 }

/-- Lines 139-142: the part of `wait_and_get_value` that runs after the
switch back: `if value is SigintHappened: raise KeyboardInterrupt();
return value`. -/
def wait_and_get_value_resume (value : PyVal) : Except PyExc PyVal :=
  if value = PyVal.sigintHappened then Except.error PyExc.keyboardInterrupt
  else Except.ok value

/-- Lines 146-149: the part of `refresh_and_get_value` that runs after the
switch back; same check against the sentinel. -/
def refresh_and_get_value_resume (value : PyVal) : Except PyExc PyVal :=
  if value = PyVal.sigintHappened then Except.error PyExc.keyboardInterrupt
  else Except.ok value

/-- Lines 127-132, `_blocking_run_code`, composed with the switch halves of
the suspension primitives: run the interpreter program; a `wait` call
suspends yielding the string tag `'wait'` and feeds the resumed value
through `wait_and_get_value_resume` (likewise `refresh`); if `runsource`
raises `SystemExit` it is caught and the tag `'SystemExit'` is returned;
any other exception propagates out of the greenlet; a normal return maps the
completeness flag to `'unfinished'` or `'done'`. -/
def blocking_run_code : InterpProg → WorkerRun
  | InterpProg.ret unfinished =>
      WorkerRun.ret (PyVal.str (if unfinished then "unfinished" else "done"))
  | InterpProg.raiseExc PyExc.systemExit => WorkerRun.ret (PyVal.str "SystemExit")
  | InterpProg.raiseExc e => WorkerRun.exc e
  | InterpProg.wait k =>
      WorkerRun.suspend (PyVal.str "wait")
        (fun v => blocking_run_code (k (wait_and_get_value_resume v)))
  | InterpProg.refresh k =>
      WorkerRun.suspend (PyVal.str "refresh")
        (fun v => blocking_run_code (k (refresh_and_get_value_resume v)))

/-- Lines 73-77, `_unload_code`. -/
def unload_code (s : CRState) : CRState :=
  { s with source := none, code_greenlet := none, code_is_waiting := false }

inductive LoadOutcome where
  | ok
  | assertionError
  deriving DecidableEq, Repr

structure LoadResult where
  outcome : LoadOutcome
  state : CRState

/-- Lines 67-71, `load_code`: assert that no source is loaded, then record
the source and reset the greenlet field. -/
def load_code (s : CRState) (source : String) : LoadResult :=
  if s.source = none then
    { outcome := LoadOutcome.ok
      state := { s with source := some source, code_greenlet := none } }
  else
    { outcome := LoadOutcome.assertionError, state := s }

/-- How a `run_code` call ends: a returned Python value (`False`, `'done'`
or `'unfinished'`), the raised `SystemExitFromCodeThread` (line 114), the
raised `ValueError` (line 116), a failed `assert` (lines 87 and 93), or an
exception that propagated out of the code greenlet at the switch. -/
inductive StepOutcome where
  | value (v : PyVal)
  | systemExitFromCodeThread
  | valueError
  | assertionError
  | raisedFromWorker (e : PyExc)
  deriving DecidableEq, Repr

structure StepResult where
  outcome : StepOutcome
  state : CRState
  refreshed : Bool

/-- Switching a value into the stored code greenlet: a suspended greenlet
resumes its continuation; the dead case is unreachable in `run_code` because
`code_is_waiting` is false once the worker has finished. -/
def switchWorker (w : Worker) (v : PyVal) : WorkerRun :=
  match w.st with
  | WorkerState.suspended k => k v
  | WorkerState.dead => WorkerRun.ret PyVal.none

/-- Lines 102-116: the chain on `request` after the switch returns.  The
state passed in already stores the advanced greenlet object.  Order of
effects in the `'done'`/`'unfinished'` branch follows lines 108-110:
`_unload_code()`, then restore the slot from `orig_sigint_handler`, then set
`orig_sigint_handler` to `None`. -/
def handle_tag (s : CRState) (request : PyVal) : StepResult :=
  if request = PyVal.str "wait" ∨ request = PyVal.str "refresh" then
    { outcome := StepOutcome.value (PyVal.bool false)
      state := { s with code_is_waiting := true }
      refreshed := decide (request = PyVal.str "refresh") }
  else if request = PyVal.str "done" ∨ request = PyVal.str "unfinished" then
    { outcome := StepOutcome.value request
      state := { unload_code s with
                 slot := s.orig_sigint_handler
                 orig_sigint_handler := SigHandler.pyNone }
      refreshed := false }
  else if request = PyVal.str "SystemExit" then
    { outcome := StepOutcome.systemExitFromCodeThread
      state := unload_code s
      refreshed := false }
  else
    { outcome := StepOutcome.valueError, state := s, refreshed := false }

/-- Interpret the observed run of the code greenlet: record the advanced
greenlet object (in Python the same object mutates in place across the
switch), then dispatch on the yielded or returned value; an exception
propagating out of the greenlet re-raises at the switch call, before the
chain on `request`. -/
def handle_request (s : CRState) (gid : Nat) (r : WorkerRun) : StepResult :=
  match r with
  | WorkerRun.suspend tag k =>
      handle_tag { s with code_greenlet := some ⟨gid, WorkerState.suspended k⟩ } tag
  | WorkerRun.ret v =>
      handle_tag { s with code_greenlet := some ⟨gid, WorkerState.dead⟩ } v
  | WorkerRun.exc e =>
      { outcome := StepOutcome.raisedFromWorker e
        state := { s with code_greenlet := some ⟨gid, WorkerState.dead⟩ }
        refreshed := false }

/-- Lines 96-100: the value delivered into the worker on resume; a pending
interrupt substitutes the sentinel for `for_code`. -/
def resume_delivered (s : CRState) (for_code : PyVal) : PyVal :=
  if s.sigint_happened then PyVal.sigintHappened else for_code

/-- Lines 79-116, `run_code`.  First branch (lines 86-91): requires a loaded
source, creates the greenlet with entry `_blocking_run_code`, saves the
current SIGINT slot into `orig_sigint_handler`, installs `sigint_handler`,
and starts the greenlet with no delivered value.  Second branch (lines
92-100): requires `code_is_waiting`, clears it, re-installs the handler, and
switches in either the sentinel (clearing the pending flag, line 97) or
`for_code`; writing `sigint_happened := false` unconditionally equals the
conditional clear at line 97 because the field is only written when it is
true.  The tail is `handle_request`. -/
def run_code (interp : String → InterpProg) (s : CRState) (for_code : PyVal) :
    StepResult :=
  match s.code_greenlet with
  | Option.none =>
    match s.source with
    | Option.none => { outcome := StepOutcome.assertionError, state := s, refreshed := false }
    | Option.some src =>
      handle_request
        { s with orig_sigint_handler := s.slot
                 slot := SigHandler.runner
                 next_gid := s.next_gid + 1 }
        s.next_gid
        (blocking_run_code (interp src))
  | Option.some w =>
    if s.code_is_waiting then
      handle_request
        { s with code_is_waiting := false
                 sigint_happened := false
                 slot := SigHandler.runner }
        w.id
        (switchWorker w (resume_delivered s for_code))
    else
      { outcome := StepOutcome.assertionError, state := s, refreshed := false }

/-- Lines 118-125, `sigint_handler`: `current` is the identity of the
greenlet that is running when the signal fires (`greenlet.getcurrent()`; the
main greenlet is `0`).  If it is the stored code greenlet, raise
`KeyboardInterrupt`; otherwise record the pending interrupt. -/
def sigint_handler (s : CRState) (current : Nat) : Except PyExc CRState :=
  if s.code_greenlet.map Worker.id = some current then
    Except.error PyExc.keyboardInterrupt
  else
    Except.ok { s with sigint_happened := true }

/-- Truthiness of a Python value that is `None` or a string: `None` and the
empty string are falsy. -/
def pyStrTruthy : Option String → Bool
  | Option.none => false
  | Option.some s => decide (s ≠ "")

/-- Truthiness of the stored code greenlet field: Python `None` is falsy,
and a greenlet object overrides bool so that it is truthy iff it is active
(started and not yet dead); every worker stored by `run_code` has been
started, so a stored worker is truthy iff it is still suspended rather than
dead. -/
def workerTruthy : Option Worker → Bool
  | Option.none => false
  | Option.some w =>
    match w.st with
    | WorkerState.suspended _ => true
    | WorkerState.dead => false

/-- Lines 62-65, the `running` property, as the truthiness of
`self.source and self.code_greenlet` (Python `and` returns its first operand
when that operand is falsy, so the result is truthy iff both operands are;
greenlet truthiness is activity, `workerTruthy`). -/
def running (s : CRState) : Bool :=
  pyStrTruthy s.source && workerTruthy s.code_greenlet

/-- Result of `FakeOutput.write`: the data forwarded to the sink via
`on_write`, and the rest of the worker-side computation. -/
structure WriteResult where
  written : List String
  prog : InterpProg

/-- Lines 155-157, `FakeOutput.write`: forward `data` to the sink, then
`return self.coderunner.refresh_and_get_value()`.  `k` is the continuation
of the caller of `write`, receiving the value `write` returns, or the
`KeyboardInterrupt` that `refresh_and_get_value` raised (nothing in `write`
catches it). -/
def FakeOutput.write (data : String) (k : Except PyExc PyVal → InterpProg) :
    WriteResult :=
  { written := [data], prog := InterpProg.refresh k }

/-- Modelled from the words of the spec for comparison with
`FakeOutput.write`: a `write` that discards the resumed value (delivering
`None` to its caller) unless it signals an interrupt, in which case the
interrupt propagates. -/
def FakeOutput.write_specDiscard (data : String)
    (k : Except PyExc PyVal → InterpProg) : WriteResult :=
  { written := [data]
    prog := InterpProg.refresh (fun r =>
      match r with
      | Except.error e => k (Except.error e)
      | Except.ok _ => k (Except.ok PyVal.none)) }

/-- Lines 161-162, `FakeOutput.flush`: does nothing and returns `None`. -/
def FakeOutput.flush : PyVal := PyVal.none

/-- Lines 163-164, `FakeOutput.isatty`. -/
def FakeOutput.isatty : Bool := true

/-- States a `CodeRunner` driven by `interp` can be in when the driver holds
control: the fresh runner, and closure under `load_code`, `run_code`, and a
SIGINT delivered while the driver holds control with the runner handler
installed (the handler then runs on the main greenlet, identity `0`). -/
inductive Reachable (interp : String → InterpProg) : CRState → Prop where
  | init (slot0 : SigHandler) : Reachable interp (initState slot0)
  | load (s : CRState) (src : String) :
      Reachable interp s → Reachable interp (load_code s src).state
  | step (s : CRState) (v : PyVal) :
      Reachable interp s → Reachable interp (run_code interp s v).state
  | sigint (s s2 : CRState) :
      Reachable interp s → s.slot = SigHandler.runner →
      sigint_handler s 0 = Except.ok s2 → Reachable interp s2

/-- Structural invariant of reachable runner states: a live worker implies a
loaded source; no loaded source implies no pending suspension; worker
identities are positive (distinct from the main greenlet) and below the
fresh counter; the fresh counter is positive. -/
def RunnerInv (s : CRState) : Prop :=
  (s.code_greenlet.isSome → s.source.isSome) ∧
  (s.source = none → s.code_is_waiting = false) ∧
  (∀ w : Worker, s.code_greenlet = some w → 1 ≤ w.id ∧ w.id < s.next_gid) ∧
  1 ≤ s.next_gid

/-- An interpreter whose source always runs to completion at once. -/
def interp0 : String → InterpProg := fun _ => InterpProg.ret false

/-- A suspended code greenlet that finishes with the tag string `'done'` on
its next resume, whatever is delivered. -/
def wDone : Worker :=
  ⟨1, WorkerState.suspended (fun _ => WorkerRun.ret (PyVal.str "done"))⟩

/-- A runner suspended on `wDone` with a pending interrupt recorded. -/
def crSusp : CRState :=
  { source := some "1 + 1"
    code_greenlet := some wDone
    code_is_waiting := true
    sigint_happened := true
    orig_sigint_handler := SigHandler.outside 7
    slot := SigHandler.runner
    next_gid := 2 }

/-- The same suspended runner with no pending interrupt. -/
def crSusp0 : CRState := { crSusp with sigint_happened := false }

/-- The runner after `load_code` of `1 + 1` on a fresh instance. -/
def crLoaded : CRState :=
  (load_code (initState (SigHandler.outside 2)) "1 + 1").state

/-- A worker continuation that finishes with `'done'`. -/
def kDone : PyVal → WorkerRun := fun _ => WorkerRun.ret (PyVal.str "done")

/-- A suspended code greenlet that yields the tag `'wait'` on its next
resume and finishes on the one after. -/
def wWaiter : Worker :=
  ⟨1, WorkerState.suspended (fun _ => WorkerRun.suspend (PyVal.str "wait") kDone)⟩

/-- A runner suspended on `wWaiter`, no pending interrupt. -/
def crWaiter : CRState :=
  { source := some "input()"
    code_greenlet := some wWaiter
    code_is_waiting := true
    sigint_happened := false
    orig_sigint_handler := SigHandler.outside 7
    slot := SigHandler.runner
    next_gid := 2 }

/-- An interpreter that immediately raises `SystemExit`. -/
def interpExit : String → InterpProg := fun _ => InterpProg.raiseExc PyExc.systemExit

/-- The step result of running an exiting source on a fresh runner whose
process SIGINT slot held an outside handler. -/
def crExitRun : StepResult :=
  run_code interpExit
    (load_code (initState (SigHandler.outside 7)) "import sys; sys.exit()").state
    PyVal.none

/-- A suspended code greenlet that yields the terminate tag on resume. -/
def wExit : Worker :=
  ⟨1, WorkerState.suspended (fun _ => WorkerRun.ret (PyVal.str "SystemExit"))⟩

/-- A runner suspended on `wExit`. -/
def crExit : CRState := { crSusp0 with code_greenlet := some wExit }

/-- A suspended code greenlet that yields a tag outside the protocol. -/
def wBogus : Worker :=
  ⟨1, WorkerState.suspended (fun _ => WorkerRun.ret (PyVal.str "bogus"))⟩

/-- A runner suspended on `wBogus`. -/
def crBogus : CRState := { crSusp0 with code_greenlet := some wBogus }

/-- The step result of resuming `crBogus`. -/
def crBogusRun : StepResult := run_code interp0 crBogus PyVal.none

/-- The value the main greenlet sees from a worker run: the yielded value on
a suspension, the returned value on a finish, nothing when an exception
propagates. -/
def yieldedVal : WorkerRun → Option PyVal
  | WorkerRun.suspend v _ => some v
  | WorkerRun.ret v => some v
  | WorkerRun.exc _ => none

/-- A probing caller of `write`: it reports (through the completeness flag)
whether the value `write` handed back is the string `'x'`. -/
def kProbe : Except PyExc PyVal → InterpProg :=
  fun r =>
    match r with
    | Except.ok (PyVal.str s) => InterpProg.ret (decide (s = "x"))
    | _ => InterpProg.ret false

/-- An interpreter that suspends for input once and then completes. -/
def interpWait : String → InterpProg :=
  fun _ => InterpProg.wait (fun _ => InterpProg.ret false)

/-- The runner state after loading the empty source and stepping once into
a worker that suspends. -/
def crEmptyRun : CRState :=
  (run_code interpWait
    (load_code (initState (SigHandler.outside 1)) "").state PyVal.none).state

lemma handle_tag_sigint_flag (s : CRState) (req : PyVal) :
    (handle_tag s req).state.sigint_happened = s.sigint_happened := by
  unfold handle_tag
  split_ifs <;> rfl

lemma handle_request_sigint_flag (s : CRState) (gid : Nat) (r : WorkerRun) :
    (handle_request s gid r).state.sigint_happened = s.sigint_happened := by
  cases r with
  | suspend tag k => exact handle_tag_sigint_flag _ tag
  | ret v => exact handle_tag_sigint_flag _ v
  | exc e => rfl

lemma runnerInv_handle_tag (s : CRState) (req : PyVal)
    (hsrc : s.source.isSome = true)
    (h3 : ∀ w : Worker, s.code_greenlet = some w → 1 ≤ w.id ∧ w.id < s.next_gid)
    (h4 : 1 ≤ s.next_gid) :
    RunnerInv (handle_tag s req).state := by
  unfold RunnerInv handle_tag
  split_ifs with hA hB hC
  · refine ⟨fun _ => hsrc, fun h0 => ?_, h3, h4⟩
    exact absurd hsrc (by simp_all)
  · refine ⟨fun h0 => ?_, fun _ => rfl, fun w hw => ?_, h4⟩
    · simp [unload_code] at h0
    · simp [unload_code] at hw
  · refine ⟨fun h0 => ?_, fun _ => rfl, fun w hw => ?_, h4⟩
    · simp [unload_code] at h0
    · simp [unload_code] at hw
  · exact ⟨fun _ => hsrc, fun h0 => absurd hsrc (by simp_all), h3, h4⟩

lemma runnerInv_handle_request (s : CRState) (gid : Nat) (r : WorkerRun)
    (hsrc : s.source.isSome = true)
    (hgid : 1 ≤ gid ∧ gid < s.next_gid)
    (h4 : 1 ≤ s.next_gid) :
    RunnerInv (handle_request s gid r).state := by
  cases r with
  | suspend tag k =>
    exact runnerInv_handle_tag _ tag hsrc
      (fun w hw => by cases hw; exact hgid) h4
  | ret v =>
    exact runnerInv_handle_tag _ v hsrc
      (fun w hw => by cases hw; exact hgid) h4
  | exc e =>
    refine ⟨fun _ => hsrc, fun h0 => absurd hsrc (by simp_all [handle_request]), fun w hw => ?_, h4⟩
    cases hw
    exact hgid

lemma runnerInv_load (s : CRState) (src : String) (h : RunnerInv s) :
    RunnerInv (load_code s src).state := by
  unfold RunnerInv load_code
  split_ifs with h0
  · refine ⟨fun hh => ?_, fun hh => ?_, fun w hw => ?_, h.2.2.2⟩
    · simp at hh
    · simp at hh
    · simp at hw
  · exact h

lemma runnerInv_run_code (interp : String → InterpProg) (s : CRState)
    (v : PyVal) (h : RunnerInv s) : RunnerInv (run_code interp s v).state := by
  obtain ⟨h1, h2, h3, h4⟩ := h
  cases hg : s.code_greenlet with
  | none =>
    cases hsrc : s.source with
    | none =>
      simp only [run_code, hg, hsrc]
      exact ⟨h1, h2, h3, h4⟩
    | some src =>
      simp only [run_code, hg, hsrc]
      exact runnerInv_handle_request _ _ _ (by simp [hsrc])
        ⟨h4, Nat.lt_succ_self _⟩ (Nat.le_succ_of_le h4)
  | some w =>
    by_cases hww : s.code_is_waiting
    · simp only [run_code, hg, hww, if_true]
      exact runnerInv_handle_request _ _ _ (h1 (by simp [hg]))
        (h3 w hg) h4
    · simp only [run_code, hg, hww, if_false]
      exact ⟨h1, h2, h3, h4⟩

lemma runnerInv_sigint (s s2 : CRState)
    (hok : sigint_handler s 0 = Except.ok s2) (h : RunnerInv s) :
    RunnerInv s2 := by
  unfold sigint_handler at hok
  split_ifs at hok with hc
  injection hok with h2
  subst h2
  exact ⟨h.1, h.2.1, h.2.2.1, h.2.2.2⟩

lemma runnerInv_init (slot0 : SigHandler) : RunnerInv (initState slot0) := by
  refine ⟨fun h => ?_, fun _ => rfl, fun w hw => ?_, Nat.le_refl 1⟩
  · simp [initState] at h
  · simp [initState] at hw

theorem reachable_runnerInv {interp : String → InterpProg} {s : CRState}
    (h : Reachable interp s) : RunnerInv s := by
  induction h with
  | init slot0 => exact runnerInv_init slot0
  | load s src _ ih => exact runnerInv_load s src ih
  | step s v _ ih => exact runnerInv_run_code interp s v ih
  | sigint s s2 _ _ hok ih => exact runnerInv_sigint s s2 hok ih

lemma run_code_resume (interp : String → InterpProg) (s : CRState)
    (for_code : PyVal) (w : Worker)
    (hw : s.code_greenlet = some w) (hwait : s.code_is_waiting = true) :
    run_code interp s for_code =
      handle_request
        { s with code_is_waiting := false
                 sigint_happened := false
                 slot := SigHandler.runner }
        w.id (switchWorker w (resume_delivered s for_code)) := by
  simp [run_code, hw, hwait]

lemma run_code_fresh (interp : String → InterpProg) (s : CRState)
    (for_code : PyVal) (src : String)
    (hg : s.code_greenlet = none) (hsrc : s.source = some src) :
    run_code interp s for_code =
      handle_request
        { s with orig_sigint_handler := s.slot
                 slot := SigHandler.runner
                 next_gid := s.next_gid + 1 }
        s.next_gid (blocking_run_code (interp src)) := by
  simp [run_code, hg, hsrc]

lemma handle_tag_wait_refresh (s : CRState) (t : String)
    (ht : t = "wait" ∨ t = "refresh") :
    handle_tag s (PyVal.str t) =
      { outcome := StepOutcome.value (PyVal.bool false)
        state := { s with code_is_waiting := true }
        refreshed := decide (t = "refresh") } := by
  rcases ht with rfl | rfl <;>
    (unfold handle_tag; rw [if_pos (by decide)]) <;> rfl

lemma handle_tag_done_unfinished (s : CRState) (t : String)
    (ht : t = "done" ∨ t = "unfinished") :
    handle_tag s (PyVal.str t) =
      { outcome := StepOutcome.value (PyVal.str t)
        state := { s with source := none
                          code_greenlet := none
                          code_is_waiting := false
                          slot := s.orig_sigint_handler
                          orig_sigint_handler := SigHandler.pyNone }
        refreshed := false } := by
  rcases ht with rfl | rfl <;>
    (unfold handle_tag; rw [if_neg (by decide), if_pos (by decide)]) <;> rfl

lemma handle_tag_systemExit (s : CRState) :
    handle_tag s (PyVal.str "SystemExit") =
      { outcome := StepOutcome.systemExitFromCodeThread
        state := unload_code s
        refreshed := false } := by
  unfold handle_tag
  rw [if_neg (by decide), if_neg (by decide), if_pos rfl]

lemma handle_tag_invalid (s : CRState) (req : PyVal)
    (n1 : ¬(req = PyVal.str "wait" ∨ req = PyVal.str "refresh"))
    (n2 : ¬(req = PyVal.str "done" ∨ req = PyVal.str "unfinished"))
    (n3 : req ≠ PyVal.str "SystemExit") :
    handle_tag s req =
      { outcome := StepOutcome.valueError, state := s, refreshed := false } := by
  unfold handle_tag
  rw [if_neg n1, if_neg n2, if_neg n3]

/-- C1: when `run_code` resumes a suspended worker while the pending-interrupt
flag is set, it clears the flag and switches the sentinel `SigintHappened`
into the worker instead of the driver-supplied `for_code`; the resume halves
of `wait_and_get_value` and `refresh_and_get_value` raise `KeyboardInterrupt`
on the sentinel and return every other delivered value unchanged. -/
theorem C1_pending_interrupt_delivery
    (interp : String → InterpProg) (s : CRState) (w : Worker) (for_code : PyVal)
    (hw : s.code_greenlet = some w) (hwait : s.code_is_waiting = true)
    (hflag : s.sigint_happened = true) :
    resume_delivered s for_code = PyVal.sigintHappened ∧
    run_code interp s for_code =
      handle_request
        { s with code_is_waiting := false
                 sigint_happened := false
                 slot := SigHandler.runner }
        w.id (switchWorker w PyVal.sigintHappened) ∧
    (run_code interp s for_code).state.sigint_happened = false ∧
    wait_and_get_value_resume PyVal.sigintHappened
      = Except.error PyExc.keyboardInterrupt ∧
    refresh_and_get_value_resume PyVal.sigintHappened
      = Except.error PyExc.keyboardInterrupt ∧
    ∀ v2 : PyVal, v2 ≠ PyVal.sigintHappened →
      wait_and_get_value_resume v2 = Except.ok v2 ∧
      refresh_and_get_value_resume v2 = Except.ok v2 := by
  have hd : resume_delivered s for_code = PyVal.sigintHappened := by
    simp [resume_delivered, hflag]
  have hrun := run_code_resume interp s for_code w hw hwait
  rw [hd] at hrun
  refine ⟨hd, hrun, ?_, rfl, rfl, ?_⟩
  · rw [hrun, handle_request_sigint_flag]
  · intro v2 hv2
    exact ⟨by simp [wait_and_get_value_resume, hv2],
           by simp [refresh_and_get_value_resume, hv2]⟩

/-- C1 witness: the theorem at a concrete suspended runner with the pending
flag set and driver value `None`. -/
theorem C1_pending_interrupt_delivery_witness :
    resume_delivered crSusp PyVal.none = PyVal.sigintHappened :=
  (C1_pending_interrupt_delivery interp0 crSusp wDone PyVal.none rfl rfl rfl).1

/-- C2: the installed SIGINT handler dispatches on the greenlet that is
current when the signal fires: in the code greenlet it raises
`KeyboardInterrupt`; in any other greenlet (in particular the main greenlet,
identity `0`, in every reachable state) it records the pending interrupt
instead of raising. -/
theorem C2_sigint_dispatch (s : CRState) :
    (∀ w : Worker, s.code_greenlet = some w →
      sigint_handler s w.id = Except.error PyExc.keyboardInterrupt) ∧
    (∀ current : Nat, s.code_greenlet.map Worker.id ≠ some current →
      sigint_handler s current = Except.ok { s with sigint_happened := true }) ∧
    (∀ interp : String → InterpProg, Reachable interp s →
      sigint_handler s 0 = Except.ok { s with sigint_happened := true }) := by
  refine ⟨?_, ?_, ?_⟩
  · intro w hw
    simp [sigint_handler, hw]
  · intro current hc
    simp [sigint_handler, hc]
  · intro interp hreach
    have hinv := reachable_runnerInv hreach
    have hne : s.code_greenlet.map Worker.id ≠ some 0 := by
      cases hg : s.code_greenlet with
      | none => simp
      | some w =>
        have hb := (hinv.2.2.1 w hg).1
        intro hcontra
        have hcontra2 : some w.id = (some 0 : Option Nat) := hcontra
        injection hcontra2 with hid
        omega
    simp [sigint_handler, hne]

/-- C2 witness: the theorem at a runner with a live worker: a signal in the
worker greenlet raises. -/
theorem C2_sigint_dispatch_witness :
    sigint_handler crSusp wDone.id = Except.error PyExc.keyboardInterrupt :=
  (C2_sigint_dispatch crSusp).1 wDone rfl

/-- C5: when the worker yields `'done'` or `'unfinished'`, `run_code` tears
down the worker context (source, greenlet and waiting substate cleared),
restores the saved prior interrupt handler into the slot, clears the saved
handler, and returns exactly that tag; the first conjunct covers a resumed
worker, the second a worker finishing on its first start (where the restored
slot value is the one saved at creation, namely the pre-step slot). -/
theorem C5_done_unfinished (interp : String → InterpProg) (s : CRState)
    (for_code : PyVal) (t : String) (ht : t = "done" ∨ t = "unfinished") :
    (∀ w : Worker, s.code_greenlet = some w → s.code_is_waiting = true →
      switchWorker w (resume_delivered s for_code) = WorkerRun.ret (PyVal.str t) →
      run_code interp s for_code =
        { outcome := StepOutcome.value (PyVal.str t)
          state := { s with source := none
                            code_greenlet := none
                            code_is_waiting := false
                            sigint_happened := false
                            slot := s.orig_sigint_handler
                            orig_sigint_handler := SigHandler.pyNone }
          refreshed := false }) ∧
    (∀ src : String, s.code_greenlet = none → s.source = some src →
      blocking_run_code (interp src) = WorkerRun.ret (PyVal.str t) →
      run_code interp s for_code =
        { outcome := StepOutcome.value (PyVal.str t)
          state := { s with source := none
                            code_greenlet := none
                            code_is_waiting := false
                            orig_sigint_handler := SigHandler.pyNone
                            next_gid := s.next_gid + 1 }
          refreshed := false }) := by
  constructor
  · intro w hw hwait hr
    rw [run_code_resume interp s for_code w hw hwait, hr]
    simp only [handle_request]
    rw [handle_tag_done_unfinished _ t ht]
  · intro src hg hsrc hb
    rw [run_code_fresh interp s for_code src hg hsrc, hb]
    simp only [handle_request]
    rw [handle_tag_done_unfinished _ t ht]

/-- C5 witness: resuming a concrete suspended worker that finishes with
`'done'`: the tag comes back and the slot is restored to the saved outside
handler. -/
theorem C5_done_unfinished_witness :
    (run_code interp0 crSusp0 PyVal.none).outcome
        = StepOutcome.value (PyVal.str "done") ∧
    (run_code interp0 crSusp0 PyVal.none).state.slot = SigHandler.outside 7 := by
  have h := (C5_done_unfinished interp0 crSusp0 PyVal.none "done"
    (Or.inl rfl)).1 wDone rfl rfl rfl
  rw [h]
  exact ⟨rfl, rfl⟩

/-- C7: the worker entry translates a `SystemExit` raised by the interpreter
into the yielded tag `'SystemExit'` instead of propagating it, and maps a
normal interpreter return to `'unfinished'` when the statement is reported
incomplete and `'done'` otherwise; the first `run_code` after a load runs the
worker as exactly one application of the interpreter to the loaded source
(the tail `handle_request` never consults the interpreter again). -/
theorem C7_worker_entry (interp : String → InterpProg) (s : CRState)
    (for_code : PyVal) (src : String) (u : Bool)
    (hg : s.code_greenlet = none) (hsrc : s.source = some src) :
    blocking_run_code (InterpProg.raiseExc PyExc.systemExit)
        = WorkerRun.ret (PyVal.str "SystemExit") ∧
    blocking_run_code (InterpProg.ret u)
        = WorkerRun.ret (PyVal.str (if u then "unfinished" else "done")) ∧
    run_code interp s for_code =
      handle_request
        { s with orig_sigint_handler := s.slot
                 slot := SigHandler.runner
                 next_gid := s.next_gid + 1 }
        s.next_gid (blocking_run_code (interp src)) :=
  ⟨rfl, rfl, run_code_fresh interp s for_code src hg hsrc⟩

/-- C7 witness: the theorem at a freshly loaded concrete runner. -/
theorem C7_worker_entry_witness :
    blocking_run_code (InterpProg.raiseExc PyExc.systemExit)
      = WorkerRun.ret (PyVal.str "SystemExit") :=
  (C7_worker_entry interp0 crLoaded PyVal.none "1 + 1" false rfl rfl).1

/-- C8: when the worker yields `'wait'` or `'refresh'`, `run_code` records
the suspended substate (`code_is_waiting` and the advanced continuation) and
returns `False` (not done); the refresh-notification callback is invoked
exactly when the tag is `'refresh'`; the first conjunct covers a resumed
worker, the second a worker suspending on its first start. -/
theorem C8_suspension_tags (interp : String → InterpProg) (s : CRState)
    (for_code : PyVal) (t : String) (k : PyVal → WorkerRun)
    (ht : t = "wait" ∨ t = "refresh") :
    (∀ w : Worker, s.code_greenlet = some w → s.code_is_waiting = true →
      switchWorker w (resume_delivered s for_code)
          = WorkerRun.suspend (PyVal.str t) k →
      run_code interp s for_code =
        { outcome := StepOutcome.value (PyVal.bool false)
          state := { s with code_greenlet := some ⟨w.id, WorkerState.suspended k⟩
                            code_is_waiting := true
                            sigint_happened := false
                            slot := SigHandler.runner }
          refreshed := decide (t = "refresh") }) ∧
    (∀ src : String, s.code_greenlet = none → s.source = some src →
      blocking_run_code (interp src) = WorkerRun.suspend (PyVal.str t) k →
      run_code interp s for_code =
        { outcome := StepOutcome.value (PyVal.bool false)
          state := { s with code_greenlet :=
                              some ⟨s.next_gid, WorkerState.suspended k⟩
                            code_is_waiting := true
                            orig_sigint_handler := s.slot
                            slot := SigHandler.runner
                            next_gid := s.next_gid + 1 }
          refreshed := decide (t = "refresh") }) := by
  constructor
  · intro w hw hwait hr
    rw [run_code_resume interp s for_code w hw hwait, hr]
    simp only [handle_request]
    rw [handle_tag_wait_refresh _ t ht]
  · intro src hg hsrc hb
    rw [run_code_fresh interp s for_code src hg hsrc, hb]
    simp only [handle_request]
    rw [handle_tag_wait_refresh _ t ht]

/-- C8 witness: resuming a concrete worker that yields `'wait'`: not-done
comes back, the waiting substate is recorded and the callback is not
invoked. -/
theorem C8_suspension_tags_witness :
    (run_code interp0 crWaiter PyVal.none).outcome
        = StepOutcome.value (PyVal.bool false) ∧
    (run_code interp0 crWaiter PyVal.none).state.code_is_waiting = true ∧
    (run_code interp0 crWaiter PyVal.none).refreshed = false := by
  have h := (C8_suspension_tags interp0 crWaiter PyVal.none "wait" kDone
    (Or.inl rfl)).1 wWaiter rfl rfl rfl
  rw [h]
  exact ⟨rfl, rfl, rfl⟩

/-- C6: in every reachable state, `load_code` fails with the reentry
assertion whenever a source is loaded or a worker context is alive (a live
worker implies a loaded source by the invariant), and when the precondition
holds it records the source, resets the greenlet field, and leaves the
suspended substate clear. -/
theorem C6_load_reentry (interp : String → InterpProg) (s : CRState)
    (src : String) (hreach : Reachable interp s) :
    ((s.source ≠ none ∨ s.code_greenlet ≠ none) →
      load_code s src = { outcome := LoadOutcome.assertionError, state := s }) ∧
    (s.source = none →
      load_code s src =
        { outcome := LoadOutcome.ok
          state := { s with source := some src, code_greenlet := none } } ∧
      (load_code s src).state.code_is_waiting = false) := by
  have hinv := reachable_runnerInv hreach
  constructor
  · intro hbad
    have hsrc : s.source ≠ none := by
      rcases hbad with h | h
      · exact h
      · intro h0
        have h1 := hinv.1 (Option.ne_none_iff_isSome.mp h)
        rw [h0] at h1
        exact absurd h1 (by simp)
    unfold load_code
    rw [if_neg hsrc]
  · intro h0
    have hw := hinv.2.1 h0
    constructor
    · unfold load_code
      rw [if_pos h0]
    · unfold load_code
      rw [if_pos h0]
      exact hw

/-- C6 witness: loading again on a runner that already holds a source fails
with the assertion and changes nothing. -/
theorem C6_load_reentry_witness :
    load_code crLoaded "x * 2"
      = { outcome := LoadOutcome.assertionError, state := crLoaded } :=
  (C6_load_reentry interp0 crLoaded "x * 2"
    (Reachable.load _ _ (Reachable.init _))).1 (Or.inl (by decide))

/-- C3 counterexample: on the terminate tag the code does NOT tear down
exactly as for done/unfinished: after an exiting source runs on a fresh
runner, the escalation `SystemExitFromCodeThread` is raised, source and
worker context are cleared, but the SIGINT slot still holds the runner
handler (the saved outside handler is not restored) and
`orig_sigint_handler` still holds the saved value (not reset), unlike the
done/unfinished branch. -/
theorem C3_counterexample :
    crExitRun.outcome = StepOutcome.systemExitFromCodeThread ∧
    crExitRun.state.source = none ∧
    crExitRun.state.code_greenlet = none ∧
    crExitRun.state.code_is_waiting = false ∧
    crExitRun.state.slot = SigHandler.runner ∧
    crExitRun.state.slot ≠ SigHandler.outside 7 ∧
    crExitRun.state.orig_sigint_handler = SigHandler.outside 7 :=
  ⟨rfl, rfl, rfl, rfl, rfl, by decide, rfl⟩

/-- C3 amended: when the worker yields the terminate tag `'SystemExit'`,
`run_code` clears the loaded source, the worker context and the suspended
substate via `_unload_code`, and escalates `SystemExitFromCodeThread` to the
driver (distinguished from an ordinary completion value), but it does NOT
restore the saved prior interrupt handler: the slot keeps the runner handler
and `orig_sigint_handler` keeps its saved value; first conjunct for a
resumed worker, second for a worker exiting on its first start. -/
theorem C3_terminate_teardown (interp : String → InterpProg) (s : CRState)
    (for_code : PyVal) :
    (∀ w : Worker, s.code_greenlet = some w → s.code_is_waiting = true →
      switchWorker w (resume_delivered s for_code)
          = WorkerRun.ret (PyVal.str "SystemExit") →
      run_code interp s for_code =
        { outcome := StepOutcome.systemExitFromCodeThread
          state := { s with source := none
                            code_greenlet := none
                            code_is_waiting := false
                            sigint_happened := false
                            slot := SigHandler.runner }
          refreshed := false }) ∧
    (∀ src : String, s.code_greenlet = none → s.source = some src →
      blocking_run_code (interp src) = WorkerRun.ret (PyVal.str "SystemExit") →
      run_code interp s for_code =
        { outcome := StepOutcome.systemExitFromCodeThread
          state := { s with source := none
                            code_greenlet := none
                            code_is_waiting := false
                            orig_sigint_handler := s.slot
                            slot := SigHandler.runner
                            next_gid := s.next_gid + 1 }
          refreshed := false }) := by
  constructor
  · intro w hw hwait hr
    rw [run_code_resume interp s for_code w hw hwait, hr]
    simp only [handle_request]
    rw [handle_tag_systemExit]
    rfl
  · intro src hg hsrc hb
    rw [run_code_fresh interp s for_code src hg hsrc, hb]
    simp only [handle_request]
    rw [handle_tag_systemExit]
    rfl

/-- C3 witness: the amended theorem at a concrete suspended worker that
terminates: escalation raised and the slot still holds the runner handler. -/
theorem C3_terminate_teardown_witness :
    (run_code interp0 crExit PyVal.none).outcome
        = StepOutcome.systemExitFromCodeThread ∧
    (run_code interp0 crExit PyVal.none).state.slot = SigHandler.runner := by
  have h := (C3_terminate_teardown interp0 crExit PyVal.none).1 wExit rfl rfl rfl
  rw [h]
  exact ⟨rfl, rfl⟩

/-- C4 counterexample: on an unrecognized tag the step fails with
`ValueError` but the worker context is NOT destroyed: the greenlet field is
still populated after the failing step. -/
theorem C4_counterexample :
    crBogusRun.outcome = StepOutcome.valueError ∧
    crBogusRun.state.code_greenlet.isSome = true :=
  ⟨rfl, rfl⟩

/-- C4 amended: when a resumed worker yields any tag other than `'wait'`,
`'refresh'`, `'done'`, `'unfinished'` or `'SystemExit'`, `run_code` fails
with the `ValueError` protocol defect but the worker context is NOT
destroyed (the greenlet field stays populated and the source stays loaded):
the unload step is missing from the defect branch. -/
theorem C4_protocol_defect (interp : String → InterpProg) (s : CRState)
    (for_code : PyVal) (w : Worker) (v : PyVal)
    (hw : s.code_greenlet = some w) (hwait : s.code_is_waiting = true)
    (hv : yieldedVal (switchWorker w (resume_delivered s for_code)) = some v)
    (n1 : ¬(v = PyVal.str "wait" ∨ v = PyVal.str "refresh"))
    (n2 : ¬(v = PyVal.str "done" ∨ v = PyVal.str "unfinished"))
    (n3 : v ≠ PyVal.str "SystemExit") :
    (run_code interp s for_code).outcome = StepOutcome.valueError ∧
    (run_code interp s for_code).state.code_greenlet.isSome = true ∧
    (run_code interp s for_code).state.source = s.source := by
  rw [run_code_resume interp s for_code w hw hwait]
  cases hr : switchWorker w (resume_delivered s for_code) with
  | suspend tag k =>
    rw [hr] at hv
    simp only [yieldedVal, Option.some.injEq] at hv
    subst hv
    simp only [handle_request]
    rw [handle_tag_invalid _ _ n1 n2 n3]
    exact ⟨rfl, rfl, rfl⟩
  | ret v2 =>
    rw [hr] at hv
    simp only [yieldedVal, Option.some.injEq] at hv
    subst hv
    simp only [handle_request]
    rw [handle_tag_invalid _ _ n1 n2 n3]
    exact ⟨rfl, rfl, rfl⟩
  | exc e =>
    rw [hr] at hv
    exact absurd hv (by simp [yieldedVal])

/-- C4 witness: the amended theorem at the concrete bogus-tag worker. -/
theorem C4_protocol_defect_witness :
    (run_code interp0 crBogus PyVal.none).outcome = StepOutcome.valueError ∧
    (run_code interp0 crBogus PyVal.none).state.code_greenlet.isSome = true ∧
    (run_code interp0 crBogus PyVal.none).state.source = crBogus.source :=
  C4_protocol_defect interp0 crBogus PyVal.none wBogus (PyVal.str "bogus")
    rfl rfl rfl (by decide) (by decide) (by decide)

/-- C9 counterexample: `write` does NOT discard the resumed value: resuming
the suspension created by `write` with the value `'x'` is observed by the
caller of `write` (the probe reports it saw `'x'`, giving `'unfinished'`),
whereas under the spec-modelled discarding `write` the caller would receive
`None` (the probe reports a miss, giving `'done'`). -/
theorem C9_counterexample :
    (match blocking_run_code (FakeOutput.write "hi" kProbe).prog with
     | WorkerRun.suspend _ res => res (PyVal.str "x")
     | r => r) = WorkerRun.ret (PyVal.str "unfinished") ∧
    (match blocking_run_code (FakeOutput.write_specDiscard "hi" kProbe).prog with
     | WorkerRun.suspend _ res => res (PyVal.str "x")
     | r => r) = WorkerRun.ret (PyVal.str "done") :=
  ⟨rfl, rfl⟩

/-- C9 amended: `write(data)` forwards `data` to the sink exactly once, then
performs exactly one refresh-requested suspension, and hands the resumed
value back to its caller as the return value of `write` (rather than
discarding it); when the resumed value is the interrupt sentinel the raised
`KeyboardInterrupt` propagates out of `write` to its caller; `flush` is a
no-op and the relay reports itself as an interactive device. -/
theorem C9_output_relay (data : String)
    (k : Except PyExc PyVal → InterpProg) :
    (FakeOutput.write data k).written = [data] ∧
    blocking_run_code (FakeOutput.write data k).prog
      = WorkerRun.suspend (PyVal.str "refresh")
          (fun v => blocking_run_code (k (refresh_and_get_value_resume v))) ∧
    (∀ v : PyVal, v ≠ PyVal.sigintHappened →
      refresh_and_get_value_resume v = Except.ok v) ∧
    refresh_and_get_value_resume PyVal.sigintHappened
      = Except.error PyExc.keyboardInterrupt ∧
    FakeOutput.flush = PyVal.none ∧
    FakeOutput.isatty = true := by
  refine ⟨rfl, rfl, ?_, rfl, rfl, rfl⟩
  intro v hv
  simp [refresh_and_get_value_resume, hv]

/-- C9 witness: the amended theorem at a concrete write. -/
theorem C9_output_relay_witness :
    (FakeOutput.write "hi" kProbe).written = ["hi"] :=
  (C9_output_relay "hi" kProbe).1

/-- C10 counterexample: with the empty string loaded as source and the
worker context created and suspended, the `running` indicator is falsy even
though a source is loaded and the worker context exists (Python `and`
returns the falsy empty string). -/
theorem C10_counterexample :
    crEmptyRun.source = some "" ∧
    crEmptyRun.code_greenlet.isSome = true ∧
    running crEmptyRun = false :=
  ⟨rfl, rfl, rfl⟩

/-- C10 amended: the `running` indicator is truthy exactly when the loaded
source is present AND nonempty and the stored worker greenlet is active
(started and still suspended, not dead, matching greenlet truthiness); in
particular it is falsy right after a successful `load_code` (no greenlet
yet), falsy after any teardown via `_unload_code`, and falsy when only a
dead greenlet is still stored. -/
theorem C10_running_indicator (s : CRState) :
    (running s = true ↔
      (∃ src : String, s.source = some src ∧ src ≠ "") ∧
        (∃ w : Worker, s.code_greenlet = some w ∧
          ∃ k : PyVal → WorkerRun, w.st = WorkerState.suspended k)) ∧
    (∀ src : String, (load_code s src).outcome = LoadOutcome.ok →
      running (load_code s src).state = false) ∧
    running (unload_code s) = false := by
  refine ⟨?_, ?_, ?_⟩
  · cases hsrc : s.source with
    | none => simp [running, pyStrTruthy, workerTruthy, hsrc]
    | some str2 =>
      cases hg : s.code_greenlet with
      | none => simp [running, pyStrTruthy, workerTruthy, hsrc, hg]
      | some w =>
        cases hst : w.st with
        | suspended k =>
          simp [running, pyStrTruthy, workerTruthy, hsrc, hg, hst]
        | dead =>
          simp [running, pyStrTruthy, workerTruthy, hsrc, hg, hst]
  · intro src hok
    by_cases h0 : s.source = none
    · simp [load_code, h0, running, pyStrTruthy, workerTruthy]
    · rw [load_code, if_neg h0] at hok
      exact absurd hok (by simp)
  · rfl

/-- C10 witness: right after a successful load of a nonempty source the
indicator reports no worker running. -/
theorem C10_running_indicator_witness :
    running (load_code (initState (SigHandler.outside 1)) "1 + 1").state = false :=
  (C10_running_indicator (initState (SigHandler.outside 1))).2.1 "1 + 1" rfl
